import Mathlib

/-!
Verification of the episodic control loop of the Talos deburring environment
(file gym_talos/envs/env_talos_deburring_her.py, class EnvTalosDeburringHer).

Numeric quantities are embedded as rationals. The per-step feature scalars
(torque norm, rest-pose cost, goal distance) that the Python code derives from
vectors via np.linalg.norm are taken as inputs here, exactly as the reward
engines of the code receive them through the param_rew row.
-/

namespace TalosEnv

/-- Configuration loaded by `_init_parameters` (with the defaults documented
there). -/
structure EnvParams where
  timeStepSimulation : ℚ
  numSimulationSteps : ℕ
  maxTime : ℚ
  weight_target : ℚ
  weight_command : ℚ
  weight_truncation : ℚ
  limitPosScale : ℚ
  limitVelScale : ℚ
  torqueScaleCoeff : ℚ
  lowerLimitPos : List ℚ
  upperLimitPos : List ℚ
  threshold_success : ℚ
  weight_target_reached : ℚ

/-- Static robot-model limit vectors consumed from the kinematics wrapper
(`self.rmodel`). -/
structure RobotModel where
  upperPositionLimit : List ℚ
  lowerPositionLimit : List ℚ
  velocityLimit : List ℚ
  effortLimit : List ℚ

/-- Embedding of `compute_reward_sparse` on a single feature row.  The code
builds the row `[torque_norm, len_to_init, alive, (dst < threshold) - 0.002]`
and takes its dot product with the column
`[-w_control_reg, 0, 0, w_target_reached]`; note that the `- 0.002` sits
inside the last feature, hence is multiplied by `w_target_reached`. -/
def compute_reward_sparse (p : EnvParams) (torque_norm len_to_init alive dst : ℚ) : ℚ :=
  torque_norm * (-p.weight_command) + len_to_init * 0 + alive * 0 +
    ((if dst < p.threshold_success then (1 : ℚ) else 0) - 2 / 1000) * p.weight_target_reached

/-- Embedding of `compute_reward_dense` on a single feature row: the dot
product of `[torque_norm, len_to_init, alive, dst]` with
`[-w_control_reg, -1, w_penalization_truncation, -w_target_pos]`. -/
def compute_reward_dense (p : EnvParams) (torque_norm len_to_init alive dst : ℚ) : ℚ :=
  torque_norm * (-p.weight_command) + len_to_init * (-1) + alive * p.weight_truncation +
    dst * (-p.weight_target)

/-- Embedding of the `_reward` path for the dense engine: the third feature of
`param_rew` is `not truncated` coerced to a number (1 when not truncated,
0 otherwise). -/
def reward_dense (p : EnvParams) (torque_norm len_to_init : ℚ) (truncated : Bool)
    (dst : ℚ) : ℚ :=
  compute_reward_dense p torque_norm len_to_init (if truncated then 0 else 1) dst

/-- Embedding of `maxStep`, computed once in `_init_env_variables` as
`int(maxTime / (timeStepSimulation * numSimulationSteps))` (the configured
quantities are positive, so the truncating int conversion is the floor). -/
def maxStep (p : EnvParams) : ℤ :=
  Rat.floor (p.maxTime / (p.timeStepSimulation * (p.numSimulationSteps : ℚ)))

/-- The episode-scoped mutable state of the controller: the step counter
`self.timer`, the on-target counter `self.on_target` and the current
`self.target.position_target`. -/
structure EpisodeState where
  timer : ℕ
  on_target : ℕ
  position_target : List ℚ

/-- Embedding of `_checkTermination`:
`self.timer > (self.maxStep - 1) or self.on_target > 30`. -/
def checkTermination (p : EnvParams) (s : EpisodeState) : Bool :=
  decide ((s.timer : ℤ) > maxStep p - 1) || decide (s.on_target > 30)

/-- Embedding of `_checkSuccess`: `self.on_target > 30`. -/
def checkSuccess (s : EpisodeState) : Bool :=
  decide (s.on_target > 30)

/-- The counter updates performed by `step`: `self.timer += 1` (line 238) and
`self.on_target += 1 if infos["on_target"] else 0` (line 253), where `onTgt`
stands for the `dst < threshold_success` flag of this step.  `step` guards
these updates with no state-machine check. -/
def stepCounters (s : EpisodeState) (onTgt : Bool) : EpisodeState :=
  { s with timer := s.timer + 1, on_target := s.on_target + (if onTgt then 1 else 0) }

/-- A sequence of `step` calls with the given per-step on-target flags. -/
def runSteps (s : EpisodeState) (inputs : List Bool) : EpisodeState :=
  inputs.foldl stepCounters s

/-- Embedding of `reset`: zero both counters; then `if options is None` draw a
fresh target, `elif "target" in options` take the override, and otherwise
(options given but without a target key) leave the previous target in place.
Here `fresh` stands for the sample the goal sampler would return.
Modelled from the spec for the Goal Sampler (the module of
`TargetGoal.create_target` is not under src/): `sample() -> 3-vector`, a fresh
goal position for the episode. -/
def reset (fresh : List ℚ) (options : Option (Option (List ℚ)))
    (s : EpisodeState) : EpisodeState :=
  let s0 : EpisodeState := { s with timer := 0, on_target := 0 }
  match options with
  | none => { s0 with position_target := fresh }
  | some o =>
    match o with
    | some t => { s0 with position_target := t }
    | none => s0

/-- Embedding of `_init_env_variables`: construction already zeroes both
counters and draws an initial target, so the state right after `__init__`
(before any `reset` call) is a fully initialised episode state. -/
def init_env_variables (fresh : List ℚ) : EpisodeState :=
  { timer := 0, on_target := 0, position_target := fresh }

/-- Elementwise `(xs < ys).any()` over the common prefix, as numpy evaluates
the broadcast comparison. -/
def anyLt (xs ys : List ℚ) : Bool :=
  (xs.zip ys).any fun pr => decide (pr.1 < pr.2)

/-- Elementwise `(xs > ys).any()`. -/
def anyGt (xs ys : List ℚ) : Bool :=
  (xs.zip ys).any fun pr => decide (pr.1 > pr.2)

/-- Embedding of `_checkTruncation` on the freshly derived centre of mass
`rCoM`, the joint positions `q = x_measured[:nq]` and the joint velocities
`v = x_measured[-nv:]`. -/
def checkTruncation (p : EnvParams) (rm : RobotModel) (rCoM q v : List ℚ) : Bool :=
  let truncation_balance := anyLt rCoM p.lowerLimitPos || anyGt rCoM p.upperLimitPos
  let truncation_limits_position :=
    anyGt q (rm.upperPositionLimit.map fun u => p.limitPosScale * u) ||
      anyLt q (rm.lowerPositionLimit.map fun l => p.limitPosScale * l)
  let truncation_limits_speed :=
    anyGt (v.map fun x => |x|) (rm.velocityLimit.map fun w => p.limitVelScale * w)
  (truncation_limits_position || truncation_limits_speed) || truncation_balance

/-- Some axis of the centre of mass lies outside the configured balance box. -/
def comOutside (p : EnvParams) (rCoM : List ℚ) : Prop :=
  (∃ pr ∈ rCoM.zip p.lowerLimitPos, pr.1 < pr.2) ∨
    (∃ pr ∈ rCoM.zip p.upperLimitPos, pr.2 < pr.1)

/-- Some joint position exceeds `limitPosScale` times the model limits. -/
def posOutside (p : EnvParams) (rm : RobotModel) (q : List ℚ) : Prop :=
  (∃ pr ∈ q.zip (rm.upperPositionLimit.map fun u => p.limitPosScale * u), pr.2 < pr.1) ∨
    (∃ pr ∈ q.zip (rm.lowerPositionLimit.map fun l => p.limitPosScale * l), pr.1 < pr.2)

/-- Some joint velocity magnitude exceeds `limitVelScale` times the model
limit. -/
def velOutside (p : EnvParams) (rm : RobotModel) (v : List ℚ) : Prop :=
  ∃ pr ∈ (v.map fun x => |x|).zip (rm.velocityLimit.map fun w => p.limitVelScale * w),
    pr.2 < pr.1

/-- Embedding of
`self.torqueScale = self.torqueScaleCoeff * np.array(self.rmodel.effortLimit)`. -/
def torqueScale (p : EnvParams) (rm : RobotModel) : List ℚ :=
  rm.effortLimit.map fun e => p.torqueScaleCoeff * e

/-- Embedding of `_scaleAction`: `self.torqueScale * action`, elementwise. -/
def scaleAction (p : EnvParams) (rm : RobotModel) (action : List ℚ) : List ℚ :=
  List.zipWith (fun t a => t * a) (torqueScale p rm) action

/-- The constants computed by `_init_obsNormalizer`. -/
structure ObsNormalizer where
  avgObs : List ℚ
  diffObs : List ℚ

/-- Embedding of `_init_obsNormalizer`: concatenate the model limits and form
`avg = (upper + lower) / 2` and `diff = upper - lower`; the code performs no
validation of `diff`. -/
def init_obsNormalizer (rm : RobotModel) : ObsNormalizer :=
  let lowerObsLim := rm.lowerPositionLimit ++ rm.velocityLimit.map fun w => -w
  let upperObsLim := rm.upperPositionLimit ++ rm.velocityLimit
  { avgObs := List.zipWith (fun u l => (u + l) / 2) upperObsLim lowerObsLim,
    diffObs := List.zipWith (fun u l => u - l) upperObsLim lowerObsLim }

/-- Embedding of `_obsNormalizer`: `(x_measured - avgObs) / diffObs`,
elementwise. -/
def obsNormalizer (n : ObsNormalizer) (x : List ℚ) : List ℚ :=
  List.zipWith (fun xd a => (xd - a.1) / a.2) x (n.avgObs.zip n.diffObs)

/-- The error kinds named by the error-handling design of the specification. -/
inductive EnvError
  | invalidState
  | invalidArgument
  | divisionByZero

/-- Exception-tracking view of the state update of `step`: the body of `step`
in the code contains no raise statement and no guard against a missing prior
`reset`, so the embedding always returns a normal result. -/
def stepE (s : EpisodeState) (onTgt : Bool) : Except EnvError EpisodeState :=
  Except.ok (stepCounters s onTgt)

/-- Exception-tracking view of `reset`: the code assigns `options["target"]`
without any dimensionality check and raises nothing. -/
def resetE (fresh : List ℚ) (options : Option (Option (List ℚ)))
    (s : EpisodeState) : Except EnvError EpisodeState :=
  Except.ok (reset fresh options s)

/-- Exception-tracking view of `_init_obsNormalizer`: the code computes the
limit vectors and raises nothing, whatever the ranges are. -/
def init_obsNormalizerE (rm : RobotModel) : Except EnvError ObsNormalizer :=
  Except.ok (init_obsNormalizer rm)

/-- Exception-tracking view of `_obsNormalizer`: numpy elementwise division
raises no exception (a zero divisor yields a non-finite entry), so the call
always returns. -/
def obsNormalizerE (n : ObsNormalizer) (x : List ℚ) : Except EnvError (List ℚ) :=
  Except.ok (obsNormalizer n x)

/-- A concrete configuration: the defaults of the code together with the
documented example values maxTime = 1 s, timestep = 0.001 s,
numSimulationSteps = 10, w_control_reg = 1, w_penalization_truncation = 0,
w_target_pos = 2, w_target_reached = 5. -/
def exampleParams : EnvParams :=
  { timeStepSimulation := 1 / 1000
    numSimulationSteps := 10
    maxTime := 1
    weight_target := 2
    weight_command := 1
    weight_truncation := 0
    limitPosScale := 10
    limitVelScale := 30
    torqueScaleCoeff := 1
    lowerLimitPos := [-(1 / 2), -(1 / 2), 9 / 10]
    upperLimitPos := [1 / 2, 1 / 2, 3 / 2]
    threshold_success := 1 / 20
    weight_target_reached := 5 }

/-- A one-joint robot model with benign limits. -/
def exampleModel : RobotModel :=
  { upperPositionLimit := [2]
    lowerPositionLimit := [-2]
    velocityLimit := [5]
    effortLimit := [100] }

/-- A model whose first observation axis has upper limit equal to lower limit,
i.e. a zero-range normalisation axis. -/
def zeroRangeModel : RobotModel :=
  { upperPositionLimit := [1, 1]
    lowerPositionLimit := [1, 0]
    velocityLimit := [3]
    effortLimit := [100] }

/-- Termination as a proposition: the boolean of `_checkTermination` is true
exactly when the step budget is exhausted or the goal has been held long
enough. -/
theorem checkTermination_iff (p : EnvParams) (s : EpisodeState) :
    checkTermination p s = true ↔ ((s.timer : ℤ) > maxStep p - 1 ∨ s.on_target > 30) := by
  simp [checkTermination]

/-- Each `step` call increments the timer by exactly one. -/
theorem runSteps_timer (s : EpisodeState) (inputs : List Bool) :
    (runSteps s inputs).timer = s.timer + inputs.length := by
  induction inputs generalizing s with
  | nil => simp [runSteps]
  | cons b bs ih =>
    have h1 : runSteps s (b :: bs) = runSteps (stepCounters s b) bs := rfl
    rw [h1, ih]
    simp [stepCounters]
    omega

/-- The on-target counter grows by at most one per step. -/
theorem runSteps_on_target_le (s : EpisodeState) (inputs : List Bool) :
    (runSteps s inputs).on_target ≤ s.on_target + inputs.length := by
  induction inputs generalizing s with
  | nil => simp [runSteps]
  | cons b bs ih =>
    have h1 : runSteps s (b :: bs) = runSteps (stepCounters s b) bs := rfl
    rw [h1]
    refine le_trans (ih (stepCounters s b)) ?_
    have h2 : (stepCounters s b).on_target ≤ s.on_target + 1 := by
      simp only [stepCounters]
      cases b <;> simp
    simp only [List.length_cons]
    omega

/-- Every branch of `reset` zeroes the on-target counter. -/
theorem reset_on_target (fresh : List ℚ) (o : Option (Option (List ℚ))) (s : EpisodeState) :
    (reset fresh o s).on_target = 0 := by
  cases o with
  | none => rfl
  | some t =>
    cases t with
    | none => rfl
    | some u => rfl

/-- One further step preserves a true termination flag: the timer only grows
and the on-target counter never decreases. -/
theorem checkTermination_stepCounters (p : EnvParams) (s : EpisodeState) (b : Bool)
    (h : checkTermination p s = true) :
    checkTermination p (stepCounters s b) = true := by
  rw [checkTermination_iff] at h ⊢
  have ht : (stepCounters s b).timer = s.timer + 1 := rfl
  have ho : s.on_target ≤ (stepCounters s b).on_target := by
    simp only [stepCounters]
    cases b <;> simp
  rcases h with h | h
  · left
    rw [ht]
    push_cast
    omega
  · right
    omega

/-- The boolean `anyLt` holds exactly when some aligned pair violates the
lower bound. -/
theorem anyLt_iff (xs ys : List ℚ) :
    anyLt xs ys = true ↔ ∃ pr ∈ xs.zip ys, pr.1 < pr.2 := by
  simp [anyLt]

/-- The boolean `anyGt` holds exactly when some aligned pair violates the
upper bound. -/
theorem anyGt_iff (xs ys : List ℚ) :
    anyGt xs ys = true ↔ ∃ pr ∈ xs.zip ys, pr.2 < pr.1 := by
  simp [anyGt]

/-- Claim C1, counterexample: with w_target_reached = 5, zero torque and goal
distance 0 (below the threshold), `compute_reward_sparse` returns 4.99, not
the claimed 4.998 = 5 - 0.002: the 0.002 step cost sits inside the feature
that is multiplied by w_target_reached. -/
theorem C1_counterexample :
    compute_reward_sparse exampleParams 0 0 1 0 ≠ 4998 / 1000 := by
  norm_num [compute_reward_sparse, exampleParams]

/-- Claim C1 (amended): for every step with the sparse policy, the reward
equals -w_control * torque_norm + w_target_reached * ((goal_distance <
threshold ? 1 : 0) - 0.002); the 0.002 per-step cost is applied on every step
independent of success, but scaled by w_target_reached.  In particular, with
w_target_reached = 5 and zero torque the reward is 4.99 below threshold and
-0.01 above. -/
theorem C1_amended (p : EnvParams) (tn li al dst : ℚ) :
    (compute_reward_sparse p tn li al dst =
      -p.weight_command * tn +
        p.weight_target_reached *
          ((if dst < p.threshold_success then (1 : ℚ) else 0) - 2 / 1000)) ∧
    compute_reward_sparse exampleParams 0 0 1 0 = 499 / 100 ∧
    compute_reward_sparse exampleParams 0 0 1 1 = -(1 / 100) := by
  refine ⟨?_, ?_, ?_⟩
  · unfold compute_reward_sparse
    ring
  · norm_num [compute_reward_sparse, exampleParams]
  · norm_num [compute_reward_sparse, exampleParams]

/-- Claim C2: for every step with the dense policy, the reward equals
-w_control * torque_norm - 1 * rest_pose_cost + w_truncation * alive_flag
- w_target * goal_distance, where the alive flag is 1 exactly when the step
was not truncated; a zero-torque, zero-rest-deviation, not-truncated step with
goal distance 0.1 and weights w_control = 1, w_truncation = 0, w_target = 2
yields reward -0.2. -/
theorem C2_dense_reward (p : EnvParams) (tn li dst : ℚ) (truncated : Bool) :
    (reward_dense p tn li truncated dst =
      -p.weight_command * tn - 1 * li +
        p.weight_truncation * (if truncated then (0 : ℚ) else 1) -
        p.weight_target * dst) ∧
    reward_dense exampleParams 0 0 false (1 / 10) = -(1 / 5) := by
  constructor
  · unfold reward_dense compute_reward_dense
    ring
  · norm_num [reward_dense, compute_reward_dense, exampleParams]

/-- Claim C3: the terminated flag is true iff timer > maxStep - 1 or
on_target > 30, where maxStep = maxTime / (timestep * numSimulationSteps) is
fixed at construction; with maxTime = 1 s, timestep = 0.001 s and 10 sub-ticks
maxStep is 100 and the 100th step after reset terminates. -/
theorem C3_termination :
    (∀ (p : EnvParams) (s : EpisodeState),
      checkTermination p s = true ↔ ((s.timer : ℤ) > maxStep p - 1 ∨ s.on_target > 30)) ∧
    maxStep exampleParams = 100 ∧
    checkTermination exampleParams
      (runSteps (init_env_variables [0, 0, 0]) (List.replicate 100 false)) = true := by
  have hmax : maxStep exampleParams = 100 := by
    norm_num [maxStep, exampleParams, Rat.floor]
  refine ⟨fun p s => checkTermination_iff p s, hmax, ?_⟩
  rw [checkTermination_iff]
  left
  rw [runSteps_timer]
  simp [init_env_variables, hmax]

/-- Claim C4: the truncated flag is true iff the centre of mass leaves the
balance box on some axis, or some joint position exceeds limitPosScale times
the model limits, or some joint velocity magnitude exceeds limitVelScale times
the model limit; whenever the centre of mass is outside the box, truncation
fires regardless of the other features. -/
theorem C4_truncation (p : EnvParams) (rm : RobotModel) (rCoM q v : List ℚ) :
    (checkTruncation p rm rCoM q v = true ↔
      (comOutside p rCoM ∨ posOutside p rm q ∨ velOutside p rm v)) ∧
    (comOutside p rCoM → checkTruncation p rm rCoM q v = true) := by
  have hbal : (anyLt rCoM p.lowerLimitPos = true ∨ anyGt rCoM p.upperLimitPos = true) ↔
      comOutside p rCoM := by
    rw [anyLt_iff, anyGt_iff, comOutside]
  have hpos : (anyGt q (rm.upperPositionLimit.map fun u => p.limitPosScale * u) = true ∨
      anyLt q (rm.lowerPositionLimit.map fun l => p.limitPosScale * l) = true) ↔
      posOutside p rm q := by
    rw [anyGt_iff, anyLt_iff, posOutside]
  have hvel : anyGt (v.map fun x => |x|) (rm.velocityLimit.map fun w => p.limitVelScale * w)
      = true ↔ velOutside p rm v := by
    rw [anyGt_iff, velOutside]
  have key : checkTruncation p rm rCoM q v = true ↔
      (comOutside p rCoM ∨ posOutside p rm q ∨ velOutside p rm v) := by
    have h1 : checkTruncation p rm rCoM q v = true ↔
        ((posOutside p rm q ∨ velOutside p rm v) ∨ comOutside p rCoM) := by
      simp only [checkTruncation, Bool.or_eq_true]
      exact or_congr (or_congr hpos hvel) hbal
    exact h1.trans (by tauto)
  exact ⟨key, fun h => key.mpr (Or.inl h)⟩

/-- Claim C4, witness: a centre of mass at the origin lies below the default
lower balance bound 0.9 on the vertical axis, and truncation fires even though
the joint state is well within its limits. -/
theorem C4_witness :
    comOutside exampleParams [0, 0, 0] ∧
      checkTruncation exampleParams exampleModel [0, 0, 0] [0] [0] = true := by
  have hcom : comOutside exampleParams [0, 0, 0] := by
    left
    refine ⟨(0, 9 / 10), ?_, by norm_num⟩
    simp [exampleParams, List.zip]
  exact ⟨hcom, (C4_truncation exampleParams exampleModel [0, 0, 0] [0] [0]).2 hcom⟩

/-- Claim C5, counterexample: calling `reset` with a non-None options record
that carries no target key keeps the previous target [9, 9, 9] instead of
drawing the fresh sample [1, 1, 1], so the target is not resolved as
"override if supplied, else a fresh sample". -/
theorem C5_counterexample :
    (reset [1, 1, 1] (some none)
        { timer := 3, on_target := 2, position_target := [9, 9, 9] }).position_target ≠
      [1, 1, 1] := by
  norm_num [reset]

/-- Claim C5 (amended): `reset` zeroes timer and on_target in every case, and
resolves the target as: the override when options carries a target key, a
fresh sample from the goal sampler when options is absent, and the previous
target unchanged when options is present without a target key. -/
theorem C5_amended (fresh t : List ℚ) (s : EpisodeState) :
    (reset fresh none s).timer = 0 ∧ (reset fresh none s).on_target = 0 ∧
    (reset fresh (some (some t)) s).timer = 0 ∧
    (reset fresh (some (some t)) s).on_target = 0 ∧
    (reset fresh (some none) s).timer = 0 ∧ (reset fresh (some none) s).on_target = 0 ∧
    (reset fresh none s).position_target = fresh ∧
    (reset fresh (some (some t)) s).position_target = t ∧
    (reset fresh (some none) s).position_target = s.position_target :=
  ⟨rfl, rfl, rfl, rfl, rfl, rfl, rfl, rfl, rfl⟩

/-- Claim C6, counterexample: calling `step` on the state produced by
construction alone (no `reset` ever called) returns a normal result, not an
InvalidStateError; and a reset whose target override is a 2-vector (wrong
dimensionality) also returns normally, assigning the malformed target. -/
theorem C6_counterexample :
    stepE (init_env_variables [0, 0, 0]) false =
      Except.ok { timer := 1, on_target := 0, position_target := [0, 0, 0] } ∧
    resetE [0, 0, 0] (some (some [1, 2])) (init_env_variables [0, 0, 0]) =
      Except.ok { timer := 0, on_target := 0, position_target := [1, 2] } :=
  ⟨rfl, rfl⟩

/-- Claim C6 (amended): the code performs no caller-usage validation: `step`
before any `reset` proceeds normally (construction already initialises the
episode state), and a target override of any dimensionality is accepted
verbatim; no InvalidStateError or InvalidArgumentError path exists. -/
theorem C6_amended (s : EpisodeState) (b : Bool) (fresh t : List ℚ) :
    stepE s b = Except.ok (stepCounters s b) ∧
    resetE fresh (some (some t)) s =
      Except.ok { timer := 0, on_target := 0, position_target := t } ∧
    (init_env_variables fresh).timer = 0 ∧ (init_env_variables fresh).on_target = 0 :=
  ⟨rfl, rfl, rfl, rfl⟩

/-- Claim C7, counterexample: constructing the observation normaliser on a
model with a zero-range axis succeeds (no DivisionByZeroError-kind failure at
construction): the zero range simply ends up in diffObs. -/
theorem C7_counterexample :
    init_obsNormalizerE zeroRangeModel = Except.ok (init_obsNormalizer zeroRangeModel) ∧
      (0 : ℚ) ∈ (init_obsNormalizer zeroRangeModel).diffObs := by
  refine ⟨rfl, ?_⟩
  norm_num [init_obsNormalizer, zeroRangeModel]

/-- Claim C7 (amended): `_init_obsNormalizer` performs no validation of the
normalisation ranges and always succeeds, and every later `_obsNormalizer`
call also returns without failing (numpy elementwise division raises nothing
on a zero divisor). -/
theorem C7_amended (rm : RobotModel) (n : ObsNormalizer) (x : List ℚ) :
    init_obsNormalizerE rm = Except.ok (init_obsNormalizer rm) ∧
      obsNormalizerE n x = Except.ok (obsNormalizer n x) :=
  ⟨rfl, rfl⟩

/-- Claim C8: within an episode the on-target counter is monotonically
non-decreasing across `step` calls, incremented by exactly one on a step whose
goal distance is below the success threshold and unchanged otherwise, and a
state reached by at most maxStep steps after `reset` (termination fires at
timer = maxStep at the latest) satisfies 0 ≤ on_target ≤ maxStep. -/
theorem C8_on_target (p : EnvParams) (fresh : List ℚ) (o : Option (Option (List ℚ)))
    (s0 : EpisodeState) (inputs : List Bool) (b : Bool)
    (hlen : (inputs.length : ℤ) ≤ maxStep p) :
    (runSteps (reset fresh o s0) inputs).on_target ≤
        (stepCounters (runSteps (reset fresh o s0) inputs) b).on_target ∧
    (stepCounters (runSteps (reset fresh o s0) inputs) b).on_target =
        (runSteps (reset fresh o s0) inputs).on_target + (if b then 1 else 0) ∧
    0 ≤ (runSteps (reset fresh o s0) inputs).on_target ∧
    ((runSteps (reset fresh o s0) inputs).on_target : ℤ) ≤ maxStep p := by
  have hle : (runSteps (reset fresh o s0) inputs).on_target ≤ inputs.length := by
    have h := runSteps_on_target_le (reset fresh o s0) inputs
    rw [reset_on_target] at h
    omega
  refine ⟨Nat.le_add_right _ _, rfl, Nat.zero_le _, ?_⟩
  calc ((runSteps (reset fresh o s0) inputs).on_target : ℤ)
      ≤ (inputs.length : ℤ) := by exact_mod_cast hle
    _ ≤ maxStep p := hlen

/-- Claim C8, witness: a three-step episode (two of them on target) under the
example configuration keeps the counter within [0, maxStep]. -/
theorem C8_witness :
    ((([true, false, true] : List Bool).length : ℤ) ≤ maxStep exampleParams) ∧
      (((runSteps (reset [0, 0, 0] none (init_env_variables [0, 0, 0]))
          [true, false, true]).on_target : ℤ) ≤ maxStep exampleParams) := by
  have hmax : maxStep exampleParams = 100 := by
    norm_num [maxStep, exampleParams, Rat.floor]
  have hlen : ((([true, false, true] : List Bool).length : ℤ) ≤ maxStep exampleParams) := by
    rw [hmax]
    norm_num
  exact ⟨hlen,
    (C8_on_target exampleParams [0, 0, 0] none (init_env_variables [0, 0, 0])
      [true, false, true] false hlen).2.2.2⟩

/-- Claim C9: for every action vector with components in [-1, 1] (and
non-negative torque coefficient and effort limits, as in any robot model),
each scaled torque satisfies |torque i| ≤ torqueScaleCoeff * effortLimit i. -/
theorem C9_scaleAction (p : EnvParams) (rm : RobotModel) (action : List ℚ)
    (hc : 0 ≤ p.torqueScaleCoeff)
    (he : ∀ e ∈ rm.effortLimit, 0 ≤ e)
    (ha : ∀ a ∈ action, |a| ≤ 1)
    (i : ℕ) (hi : i < (scaleAction p rm action).length) :
    |(scaleAction p rm action).get ⟨i, hi⟩| ≤
      p.torqueScaleCoeff * rm.effortLimit.getD i 0 := by
  have hlen : (scaleAction p rm action).length =
      min rm.effortLimit.length action.length := by
    simp [scaleAction, torqueScale]
  have hie : i < rm.effortLimit.length := by
    rw [hlen] at hi
    exact lt_of_lt_of_le hi (min_le_left _ _)
  have hia : i < action.length := by
    rw [hlen] at hi
    exact lt_of_lt_of_le hi (min_le_right _ _)
  have hval : (scaleAction p rm action).get ⟨i, hi⟩ =
      p.torqueScaleCoeff * rm.effortLimit.get ⟨i, hie⟩ * action.get ⟨i, hia⟩ := by
    simp [scaleAction, torqueScale, List.get_eq_getElem, List.getElem_zipWith,
      List.getElem_map]
  have hgetD : rm.effortLimit.getD i 0 = rm.effortLimit.get ⟨i, hie⟩ := by
    rw [List.getD_eq_getElem _ _ hie]
    simp [List.get_eq_getElem]
  have he0 : 0 ≤ rm.effortLimit.get ⟨i, hie⟩ := he _ (List.get_mem _ _ hie)
  have ha1 : |action.get ⟨i, hia⟩| ≤ 1 := ha _ (List.get_mem _ _ hia)
  rw [hval, hgetD]
  have hce : 0 ≤ p.torqueScaleCoeff * rm.effortLimit.get ⟨i, hie⟩ :=
    mul_nonneg hc he0
  calc |p.torqueScaleCoeff * rm.effortLimit.get ⟨i, hie⟩ * action.get ⟨i, hia⟩|
      = (p.torqueScaleCoeff * rm.effortLimit.get ⟨i, hie⟩) * |action.get ⟨i, hia⟩| := by
        rw [abs_mul, abs_of_nonneg hce]
    _ ≤ (p.torqueScaleCoeff * rm.effortLimit.get ⟨i, hie⟩) * 1 :=
        mul_le_mul_of_nonneg_left ha1 hce
    _ = p.torqueScaleCoeff * rm.effortLimit.get ⟨i, hie⟩ := mul_one _

/-- Claim C9, witness: the action 1/2 on the one-joint example model scales to
a torque of magnitude 50, within the bound 1 * 100. -/
theorem C9_witness :
    ((0 : ℚ) ≤ exampleParams.torqueScaleCoeff ∧
      (∀ e ∈ exampleModel.effortLimit, (0 : ℚ) ≤ e) ∧
      (∀ a ∈ ([1 / 2] : List ℚ), |a| ≤ 1)) ∧
    |(scaleAction exampleParams exampleModel [1 / 2]).get
        ⟨0, by norm_num [scaleAction, torqueScale, exampleModel]⟩| ≤
      exampleParams.torqueScaleCoeff * exampleModel.effortLimit.getD 0 0 := by
  have hc : (0 : ℚ) ≤ exampleParams.torqueScaleCoeff := by norm_num [exampleParams]
  have he : ∀ e ∈ exampleModel.effortLimit, (0 : ℚ) ≤ e := by
    intro e hme
    simp [exampleModel] at hme
    rw [hme]
    norm_num
  have ha : ∀ a ∈ ([1 / 2] : List ℚ), |a| ≤ 1 := by
    intro a hma
    simp at hma
    rw [hma]
    rw [abs_of_nonneg (by norm_num)]
    norm_num
  exact ⟨⟨hc, he, ha⟩,
    C9_scaleAction exampleParams exampleModel [1 / 2] hc he ha 0
      (by norm_num [scaleAction, torqueScale, exampleModel])⟩

/-- Claim C10: termination is absorbing within an episode: `step` increments
the timer by exactly one and never decreases on_target, and performs no
state-machine guard, so once `_checkTermination` holds it holds after every
further sequence of `step` calls made without an intervening `reset`. -/
theorem C10_absorbing (p : EnvParams) (s : EpisodeState) (inputs : List Bool)
    (h : checkTermination p s = true) :
    checkTermination p (runSteps s inputs) = true := by
  induction inputs generalizing s with
  | nil => exact h
  | cons b bs ih =>
    have h1 : runSteps s (b :: bs) = runSteps (stepCounters s b) bs := rfl
    rw [h1]
    exact ih _ (checkTermination_stepCounters p s b h)

/-- Claim C10, witness: a state already terminated at timer = 100 stays
terminated after two further steps. -/
theorem C10_witness :
    checkTermination exampleParams
        { timer := 100, on_target := 0, position_target := [0, 0, 0] } = true ∧
      checkTermination exampleParams
        (runSteps { timer := 100, on_target := 0, position_target := [0, 0, 0] }
          [false, true]) = true := by
  have h : checkTermination exampleParams
      { timer := 100, on_target := 0, position_target := [0, 0, 0] } = true := by
    rw [checkTermination_iff]
    left
    have hmax : maxStep exampleParams = 100 := by
      norm_num [maxStep, exampleParams, Rat.floor]
    rw [hmax]
    norm_num
  exact ⟨h, C10_absorbing exampleParams _ [false, true] h⟩

end TalosEnv
